import Mathlib

set_option autoImplicit false

namespace BokChoy

/-! # Shallow embedding of `bok_choy/browser.py`

The module resolves, from a snapshot of the process environment, how to
construct a Selenium browser session: local browser, generic remote
browser, or SauceLabs (managed cloud). The embedding below mirrors the
Python source function by function. Python dictionaries are modelled as
insertion-ordered association lists with Python `dict` assignment and
`update` semantics; exceptions are modelled with `Except`. -/

/-- A JSON-like value, as stored in the Python dictionaries built by
`browser.py`: strings, booleans, integers, `None`, lists, and nested
string-keyed dicts (insertion-ordered association lists). -/
inductive Val where
  | str (s : String)
  | bool (b : Bool)
  | int (n : Int)
  | null
  | list (l : List Val)
  | dict (d : List (String × Val))
  deriving Repr

/-- Lookup in a Python dict modelled as an association list
(first binding wins; our dicts never hold duplicate keys). -/
def dictGet {α : Type} : List (String × α) → String → Option α
  | [], _ => none
  | (k', v) :: rest, k => if k' = k then some v else dictGet rest k

/-- Python `k in d` for a dict. -/
def hasKey {α : Type} (d : List (String × α)) (k : String) : Bool :=
  (dictGet d k).isSome

/-- Python dict assignment `d[k] = v`: replace the value in place if the key
is present (keeping its position), otherwise append the binding at the end. -/
def dictSet {α : Type} : List (String × α) → String → α → List (String × α)
  | [], k, v => [(k, v)]
  | (k', v') :: rest, k, v =>
      if k' = k then (k, v) :: rest else (k', v') :: dictSet rest k v

/-- Python `d.update(other)`: assign each binding of `other` into `d`,
in order. -/
def dictUpdate {α : Type} (d other : List (String × α)) : List (String × α) :=
  other.foldl (fun acc kv => dictSet acc kv.1 kv.2) d

/-- A snapshot of the process environment (`os.environ`): an
insertion-ordered mapping from variable name to string value. -/
abbrev Env : Type := List (String × String)

/-- Python `os.environ.get(k)`. -/
def envGet (env : Env) (k : String) : Option String :=
  dictGet env k

/-- Source constant `REMOTE_ENV_VARS`: the variables required for a
generic remote browser. -/
def REMOTE_ENV_VARS : List String :=
  ["SELENIUM_BROWSER", "SELENIUM_HOST", "SELENIUM_PORT"]

/-- Source constant `SAUCE_ENV_VARS`: `REMOTE_ENV_VARS` plus the
SauceLabs-specific variables. -/
def SAUCE_ENV_VARS : List String :=
  REMOTE_ENV_VARS ++
    ["SELENIUM_VERSION", "SELENIUM_PLATFORM", "SAUCE_USER_NAME", "SAUCE_API_KEY"]

/-- Source constant `OPTIONAL_ENV_VARS`: the Jenkins job-tracking pair. -/
def OPTIONAL_ENV_VARS : List String :=
  ["JOB_NAME", "BUILD_NUMBER"]

/-- The Selenium webdriver classes that can be returned; `remote` stands for
`webdriver.Remote`, the others for the four local driver classes. -/
inductive BrowserClass where
  | firefox
  | chrome
  | ie
  | safari
  | remote
  deriving DecidableEq, Repr

/-- Source constant `BROWSERS`: the supported local browser names, in the
dict's insertion order, mapped to their webdriver classes. -/
def BROWSERS : List (String × BrowserClass) :=
  [("firefox", .firefox), ("chrome", .chrome),
   ("internet explorer", .ie), ("safari", .safari)]

/-- The key domain of `BROWSERS`: the supported browser identifiers. -/
def supportedBrowserNames : List String :=
  BROWSERS.map Prod.fst

/-- Python exceptions that the embedded code can raise:
`BrowserConfigError msg` is the module's own configuration error (with its
message), `keyError k` a dict subscript miss, `typeError` any other
impossible-shape failure. -/
inductive PyErr where
  | browserConfigError (msg : String)
  | keyError (key : String)
  | typeError (msg : String)
  deriving DecidableEq, Repr

/-- Python dict subscript `d[k]`, raising `KeyError` when absent. -/
def subscr {α : Type} (d : List (String × α)) (k : String) : Except PyErr α :=
  match dictGet d k with
  | some v => .ok v
  | none => .error (.keyError k)

/-- Embedding of `_use_remote_browser`: true iff every variable of `required_vars` is
present in the environment. -/
def use_remote_browser (env : Env) (required_vars : List String) : Bool :=
  required_vars.all fun key => (envGet env key).isSome

/-- The dict comprehension `{key: environ.get(key) for key in vars}`,
restricted to the keys actually present (both `_required_envs`, after its
missing-keys check, and `_optional_envs` produce exactly this dict). -/
def collectPresent (env : Env) (vars : List String) : List (String × String) :=
  vars.filterMap fun key => (envGet env key).map fun v => (key, v)

/-- Embedding of `_required_envs`: read the given variables from the environment, raising
`BrowserConfigError` listing every missing one, then raising
`BrowserConfigError` if the `SELENIUM_BROWSER` value is unsupported. -/
def required_envs (env : Env) (env_vars : List String) :
    Except PyErr (List (String × String)) :=
  let missing := env_vars.filter fun key => (envGet env key).isNone
  if missing.isEmpty then
    let envs := collectPresent env env_vars
    match dictGet envs "SELENIUM_BROWSER" with
    | some b =>
        if supportedBrowserNames.contains b then .ok envs
        else .error (.browserConfigError ("Unsuppported browser: " ++ b))
    | none => .error (.keyError "SELENIUM_BROWSER")
  else
    .error (.browserConfigError
      ("These environment variables must be set: " ++ String.intercalate ", " missing))

/-- Embedding of `_optional_envs`: collect whichever of the optional Jenkins variables are
present, raising `BrowserConfigError` if exactly one of the
`JOB_NAME`/`BUILD_NUMBER` pair is present. -/
def optional_envs (env : Env) : Except PyErr (List (String × String)) :=
  let envs := collectPresent env OPTIONAL_ENV_VARS
  if hasKey envs "JOB_NAME" && !hasKey envs "BUILD_NUMBER" then
    .error (.browserConfigError "Missing BUILD_NUMBER environment var")
  else if hasKey envs "BUILD_NUMBER" && !hasKey envs "JOB_NAME" then
    .error (.browserConfigError "Missing JOB_NAME environment var")
  else .ok envs

/-- The capabilities dict literal of `_capabilities_dict`, before the
SauceLabs-specific and Jenkins-specific updates. -/
def baseCapabilities (bn : String) (tags : List String) : List (String × Val) :=
  [("browserName", .str bn),
   ("video-upload-on-pass", .bool false),
   ("sauce-advisor", .bool false),
   ("capture-html", .bool true),
   ("record-screenshots", .bool true),
   ("max-duration", .int 600),
   ("public", .str "public restricted"),
   ("tags", .list (tags.map .str))]

/-- The `sauce_capabilities` update of `_capabilities_dict`: build the
SauceLabs-specific dict from `envs` and merge it into the capabilities. -/
def sauce_capabilities (envs : List (String × String))
    (capabilities : List (String × Val)) : Except PyErr (List (String × Val)) :=
  match subscr envs "SELENIUM_PLATFORM" with
  | .error e => .error e
  | .ok plat =>
    match subscr envs "SELENIUM_VERSION" with
    | .error e => .error e
    | .ok ver =>
      match subscr envs "SAUCE_USER_NAME" with
      | .error e => .error e
      | .ok user =>
        match subscr envs "SAUCE_API_KEY" with
        | .error e => .error e
        | .ok key =>
          .ok (dictUpdate capabilities
            [("platform", .str plat), ("version", .str ver),
             ("username", .str user), ("accessKey", .str key)])

/-- The `jenkins_vars` update of `_capabilities_dict`: build the Jenkins
job-tracking dict from `envs` and merge it into the capabilities. -/
def jenkins_vars (envs : List (String × String))
    (capabilities : List (String × Val)) : Except PyErr (List (String × Val)) :=
  match subscr envs "BUILD_NUMBER" with
  | .error e => .error e
  | .ok build =>
    match subscr envs "JOB_NAME" with
    | .error e => .error e
    | .ok nm =>
      .ok (dictUpdate capabilities [("build", .str build), ("name", .str nm)])

/-- Embedding of `_capabilities_dict`: turn the collected environment variables into the
desired-capabilities dict. Reads the global environment again through
`_use_remote_browser(SAUCE_ENV_VARS)` to decide whether to add the
SauceLabs-specific capabilities. -/
def capabilities_dict (env : Env) (envs : List (String × String))
    (tags : List String) : Except PyErr (List (String × Val)) :=
  match subscr envs "SELENIUM_BROWSER" with
  | .error e => .error e
  | .ok bn =>
    let capabilities := baseCapabilities bn tags
    match (if use_remote_browser env SAUCE_ENV_VARS then
        sauce_capabilities envs capabilities
      else .ok capabilities) with
    | .error e => .error e
    | .ok capabilities =>
      if hasKey envs "JOB_NAME" then jenkins_vars envs capabilities
      else .ok capabilities

/-- Keyword arguments passed to the webdriver constructor. -/
abbrev Kwargs : Type := List (String × Val)

/-- The result of resolution: the webdriver class to instantiate, its
positional arguments, and its keyword arguments. -/
abbrev ResolvedBrowser : Type := BrowserClass × List Val × Kwargs

/-- Embedding of `_local_browser_class`: look the browser name up in `BROWSERS`, raising
`BrowserConfigError` (listing the supported options) when absent. -/
def local_browser_class (browser_name : String) : Except PyErr ResolvedBrowser :=
  match dictGet BROWSERS browser_name with
  | none =>
      .error (.browserConfigError
        ("Invalid browser name " ++ browser_name ++ ".  Options are: " ++
          String.intercalate ", " supportedBrowserNames))
  | some browser_class => .ok (browser_class, [], [])

/-- Embedding of `_remote_browser_class`: validate the required and optional environment
variables, build the capabilities dict and the hub URL, and return
`webdriver.Remote` with its keyword arguments. -/
def remote_browser_class (env : Env) (env_vars : List String)
    (tags : Option (List String)) : Except PyErr ResolvedBrowser := do
  let tags := tags.getD []
  let envs ← required_envs env env_vars
  let opt ← optional_envs env
  let envs := dictUpdate envs opt
  let caps ← capabilities_dict env envs tags
  let host ← subscr envs "SELENIUM_HOST"
  let port ← subscr envs "SELENIUM_PORT"
  let url := "http://" ++ host ++ ":" ++ port ++ "/wd/hub"
  return (.remote, [],
    [("command_executor", .str url), ("desired_capabilities", .dict caps)])

/-- A proxy instance, of which the source reads only `proxy.host`. -/
structure Proxy where
  host : String
  deriving DecidableEq, Repr

/-- The fixed browser-name → proxy-type table inside `_proxy_kwargs`. -/
def proxyTypeTable : List (String × String) :=
  [("firefox", "MANUAL"), ("internet explorer", "MANUAL"),
   ("chrome", "AUTODETECT"), ("safari", "AUTODETECT")]

/-- The proxy block `_proxy_kwargs` builds (the value of its `proxy` key). -/
def proxyBlock (proxy : Proxy) (proxy_type : String) : Val :=
  .dict
    [("httpProxy", .str proxy.host),
     ("ftpProxy", .str proxy.host),
     ("sslProxy", .str proxy.host),
     ("noProxy", .null),
     ("proxyType", .str proxy_type),
     ("class", .str "org.openqa.selenium.Proxy")]

/-- Embedding of `_proxy_kwargs`: inject the proxy block into the keyword arguments.
For firefox with no `desired_capabilities` argument the block goes under a
fresh `capabilities` argument; otherwise it is merged into
`desired_capabilities` (created empty if absent). -/
def proxy_kwargs (browser_name : String) (proxy : Proxy)
    (browser_kwargs : Kwargs) : Except PyErr Kwargs := do
  let pt ← subscr proxyTypeTable browser_name
  let proxy_dict : List (String × Val) := [("proxy", proxyBlock proxy pt)]
  if browser_name = "firefox" && !hasKey browser_kwargs "desired_capabilities" then
    return dictSet browser_kwargs "capabilities" (.dict (dictUpdate [] proxy_dict))
  else
    let kw :=
      if !hasKey browser_kwargs "desired_capabilities" then
        dictSet browser_kwargs "desired_capabilities" (.dict [])
      else browser_kwargs
    match dictGet kw "desired_capabilities" with
    | some (.dict d) =>
        return dictSet kw "desired_capabilities" (.dict (dictUpdate d proxy_dict))
    | some _ => .error (.typeError "desired_capabilities is not a dict")
    | none => .error (.keyError "desired_capabilities")

/-- Embedding of `browser`: classify the environment (SauceLabs set fully present →
managed cloud; else remote set fully present → generic remote; else local),
build the class and arguments, and inject proxy kwargs when a proxy is
given. The final constructor call is external and out of scope; resolution
returns its inputs. -/
def browser (env : Env) (tags : Option (List String))
    (proxy : Option Proxy) : Except PyErr ResolvedBrowser := do
  let browser_name := (envGet env "SELENIUM_BROWSER").getD "firefox"
  let (browser_class, browser_args, browser_kwargs) ←
    if use_remote_browser env SAUCE_ENV_VARS then
      remote_browser_class env SAUCE_ENV_VARS tags
    else if use_remote_browser env REMOTE_ENV_VARS then
      remote_browser_class env REMOTE_ENV_VARS tags
    else
      local_browser_class browser_name
  let browser_kwargs ←
    match proxy with
    | some p => proxy_kwargs browser_name p browser_kwargs
    | none => pure browser_kwargs
  return (browser_class, browser_args, browser_kwargs)

/-- The three resolution modes of the spec. -/
inductive Mode where
  | Local
  | Remote
  | ManagedCloud
  deriving DecidableEq, Repr

/-- The environment classifier, as structured in `browser`: the SauceLabs
set fully present means managed cloud, else the remote set fully present
means generic remote, else local. -/
def mode (env : Env) : Mode :=
  if use_remote_browser env SAUCE_ENV_VARS then .ManagedCloud
  else if use_remote_browser env REMOTE_ENV_VARS then .Remote
  else .Local

/-- Occurrences of a key in a dict (the invariant of interest is that it
is exactly one for `browserName`). -/
def countKey {α : Type} (d : List (String × α)) (k : String) : Nat :=
  (d.map Prod.fst).count k

/-! ## Helper lemmas about the dict model and the classifier -/

theorem bindE_ok {ε α β : Type} (a : α) (f : α → Except ε β) :
    (Except.ok a >>= f) = f a := rfl

theorem bindE_err {ε α β : Type} (e : ε) (f : α → Except ε β) :
    ((Except.error e : Except ε α) >>= f) = .error e := rfl

theorem pureE {ε α : Type} (a : α) : (pure a : Except ε α) = .ok a := rfl

theorem dictGet_dictSet {α : Type} (d : List (String × α)) (k k' : String) (v : α) :
    dictGet (dictSet d k v) k' = if k = k' then some v else dictGet d k' := by
  induction d with
  | nil => by_cases h : k = k' <;> simp [dictSet, dictGet, h]
  | cons hd tl ih =>
      obtain ⟨a, b⟩ := hd
      simp only [dictSet]
      by_cases hak : a = k
      · subst hak
        simp only [if_pos rfl, dictGet]
        by_cases h2 : a = k' <;> simp [h2]
      · simp only [if_neg hak, dictGet]
        by_cases hak' : a = k'
        · subst hak'
          have hkk' : ¬ k = a := fun h => hak h.symm
          simp [hkk']
        · simp [hak', ih]

theorem hasKey_dictSet {α : Type} (d : List (String × α)) (k k' : String) (v : α) :
    hasKey (dictSet d k v) k' = (k = k' || hasKey d k') := by
  by_cases h : k = k' <;> simp [hasKey, dictGet_dictSet, h]

theorem mem_keys_iff_isSome {α : Type} (d : List (String × α)) (k : String) :
    k ∈ d.map Prod.fst ↔ (dictGet d k).isSome := by
  induction d with
  | nil => simp [dictGet]
  | cons hd tl ih =>
      obtain ⟨a, b⟩ := hd
      by_cases hak : a = k
      · subst hak
        simp [dictGet]
      · have hka : ¬ k = a := fun h => hak h.symm
        simp [dictGet, hak, hka, ih]

theorem countKey_dictSet_ne {α : Type} (d : List (String × α)) (k k' : String)
    (v : α) (h : k ≠ k') : countKey (dictSet d k v) k' = countKey d k' := by
  induction d with
  | nil => simp [dictSet, countKey, List.count_cons, h]
  | cons hd tl ih =>
      obtain ⟨a, b⟩ := hd
      by_cases hak : a = k
      · subst hak
        simp [dictSet, countKey, List.count_cons, h]
      · simp only [dictSet, if_neg hak]
        have ih' : (List.map Prod.fst (dictSet tl k v)).count k' =
            (List.map Prod.fst tl).count k' := ih
        simp [countKey, List.count_cons, ih']

theorem use_remote_iff (env : Env) (vars : List String) :
    use_remote_browser env vars = true ↔ ∀ k ∈ vars, (envGet env k).isSome := by
  simp [use_remote_browser, List.all_eq_true]

theorem sauce_split (env : Env) :
    use_remote_browser env SAUCE_ENV_VARS =
      (use_remote_browser env REMOTE_ENV_VARS &&
        use_remote_browser env
          ["SELENIUM_VERSION", "SELENIUM_PLATFORM", "SAUCE_USER_NAME", "SAUCE_API_KEY"]) := by
  simp [use_remote_browser, SAUCE_ENV_VARS, List.all_append]

theorem sauce_false_of_remote_false (env : Env)
    (h : use_remote_browser env REMOTE_ENV_VARS = false) :
    use_remote_browser env SAUCE_ENV_VARS = false := by
  simp [sauce_split, h]

theorem mode_eq_managedCloud_iff (env : Env) :
    mode env = .ManagedCloud ↔ use_remote_browser env SAUCE_ENV_VARS = true := by
  unfold mode
  split
  · simp_all
  · split <;> simp_all

theorem dictGet_collectPresent (env : Env) (vars : List String) (k : String)
    (hk : k ∈ vars) (hall : ∀ x ∈ vars, (envGet env x).isSome) :
    dictGet (collectPresent env vars) k = envGet env k := by
  induction vars with
  | nil => cases hk
  | cons hd tl ih =>
      have hhd : (envGet env hd).isSome := hall hd (List.mem_cons_self hd tl)
      obtain ⟨vh, hvh⟩ := Option.isSome_iff_exists.mp hhd
      by_cases hhk : hd = k
      · subst hhk
        simp [collectPresent, hvh, dictGet]
      · rcases List.mem_cons.mp hk with h | h
        · exact absurd h.symm hhk
        · have := ih h (fun x hx => hall x (List.mem_cons_of_mem hd hx))
          simpa [collectPresent, hvh, dictGet, hhk] using this

theorem required_envs_eq_ok (env : Env) (vars : List String)
    (hall : use_remote_browser env vars = true)
    (hb : "SELENIUM_BROWSER" ∈ vars)
    (hsup : ((envGet env "SELENIUM_BROWSER").getD "firefox") ∈ supportedBrowserNames) :
    required_envs env vars = .ok (collectPresent env vars) := by
  have hall' := (use_remote_iff env vars).mp hall
  have hmiss : vars.filter (fun key => (envGet env key).isNone) = [] := by
    refine List.filter_eq_nil_iff.mpr fun k hk => ?_
    have h1 := hall' k hk
    simp only [Option.isSome_iff_ne_none] at h1
    simpa [Option.isNone_iff_eq_none] using h1
  obtain ⟨b, hbv⟩ := Option.isSome_iff_exists.mp (hall' _ hb)
  have hget : dictGet (collectPresent env vars) "SELENIUM_BROWSER" = some b := by
    rw [dictGet_collectPresent env vars _ hb hall', hbv]
  have hsupb : b ∈ supportedBrowserNames := by
    simpa [hbv] using hsup
  simp [required_envs, hmiss, hget, hsupb]

theorem required_envs_eq_err_missing (env : Env) (vars : List String)
    (hne : vars.filter (fun k => (envGet env k).isNone) ≠ []) :
    required_envs env vars = .error (.browserConfigError
      ("These environment variables must be set: " ++
        String.intercalate ", " (vars.filter (fun k => (envGet env k).isNone)))) := by
  have hfalse : (vars.filter (fun k => (envGet env k).isNone)).isEmpty = false := by
    simpa [List.isEmpty_iff] using hne
  simp [required_envs, hfalse]

theorem required_envs_eq_err_unsupported (env : Env) (vars : List String)
    (hall : use_remote_browser env vars = true)
    (hb : "SELENIUM_BROWSER" ∈ vars) (b : String)
    (hbv : envGet env "SELENIUM_BROWSER" = some b)
    (hsup : b ∉ supportedBrowserNames) :
    required_envs env vars = .error (.browserConfigError ("Unsuppported browser: " ++ b)) := by
  have hall' := (use_remote_iff env vars).mp hall
  have hmiss : vars.filter (fun key => (envGet env key).isNone) = [] := by
    refine List.filter_eq_nil_iff.mpr fun k hk => ?_
    have h1 := hall' k hk
    simp only [Option.isSome_iff_ne_none] at h1
    simpa [Option.isNone_iff_eq_none] using h1
  have hget : dictGet (collectPresent env vars) "SELENIUM_BROWSER" = some b := by
    rw [dictGet_collectPresent env vars _ hb hall', hbv]
  simp [required_envs, hmiss, hget, hsup]

/-- Whether a resolution attempt completed without raising. -/
def isOk {ε α : Type} : Except ε α → Bool
  | .ok _ => true
  | .error _ => false

theorem bind_ok_iff {ε α β : Type} (x : Except ε α) (f : α → Except ε β) (b : β) :
    (x >>= f) = .ok b ↔ ∃ a, x = .ok a ∧ f a = .ok b := by
  cases x with
  | ok a => simp [bindE_ok]
  | error e => simp [bindE_err]

theorem optional_envs_missing_build (env : Env)
    (hj : (envGet env "JOB_NAME").isSome) (hb : envGet env "BUILD_NUMBER" = none) :
    optional_envs env = .error (.browserConfigError "Missing BUILD_NUMBER environment var") := by
  obtain ⟨j, hjv⟩ := Option.isSome_iff_exists.mp hj
  simp [optional_envs, OPTIONAL_ENV_VARS, collectPresent, hjv, hb, hasKey, dictGet]

theorem optional_envs_missing_job (env : Env)
    (hj : envGet env "JOB_NAME" = none) (hb : (envGet env "BUILD_NUMBER").isSome) :
    optional_envs env = .error (.browserConfigError "Missing JOB_NAME environment var") := by
  obtain ⟨b, hbv⟩ := Option.isSome_iff_exists.mp hb
  simp [optional_envs, OPTIONAL_ENV_VARS, collectPresent, hj, hbv, hasKey, dictGet]

theorem sauce_capabilities_shape (envs : List (String × String))
    (d caps' : List (String × Val)) (h : sauce_capabilities envs d = .ok caps') :
    ∃ plat ver user key, caps' = dictUpdate d
      [("platform", Val.str plat), ("version", Val.str ver),
       ("username", Val.str user), ("accessKey", Val.str key)] := by
  simp only [sauce_capabilities] at h
  split at h
  · simp at h
  · split at h
    · simp at h
    · split at h
      · simp at h
      · split at h
        · simp at h
        · rw [Except.ok.injEq] at h
          exact ⟨_, _, _, _, h.symm⟩

theorem jenkins_vars_shape (envs : List (String × String))
    (d caps' : List (String × Val)) (h : jenkins_vars envs d = .ok caps') :
    ∃ bu nm, caps' = dictUpdate d [("build", Val.str bu), ("name", Val.str nm)] := by
  simp only [jenkins_vars] at h
  split at h
  · simp at h
  · split at h
    · simp at h
    · rw [Except.ok.injEq] at h
      exact ⟨_, _, h.symm⟩

theorem capabilities_dict_shape (env : Env) (envs : List (String × String))
    (tags : List String) (caps : List (String × Val))
    (h : capabilities_dict env envs tags = .ok caps) :
    ∃ (bn : String) (sauceExt jenkExt : List (String × Val)),
      caps = dictUpdate (dictUpdate (baseCapabilities bn tags) sauceExt) jenkExt ∧
      ((use_remote_browser env SAUCE_ENV_VARS = true ∧
          ∃ plat ver user key, sauceExt =
            [("platform", Val.str plat), ("version", Val.str ver),
             ("username", Val.str user), ("accessKey", Val.str key)]) ∨
        (use_remote_browser env SAUCE_ENV_VARS = false ∧ sauceExt = [])) ∧
      ((∃ bu nm, jenkExt = [("build", Val.str bu), ("name", Val.str nm)]) ∨
        jenkExt = []) := by
  simp only [capabilities_dict] at h
  split at h
  · simp at h
  · rename_i bn hbn
    split at h
    · simp at h
    · rename_i caps1 heq
      split at heq
      case isTrue hsauce =>
          obtain ⟨plat, ver, user, key, hc1⟩ :=
            sauce_capabilities_shape envs _ caps1 heq
          subst hc1
          split at h
          case isTrue hjob =>
              obtain ⟨bu, nm, hc2⟩ := jenkins_vars_shape envs _ caps h
              exact ⟨bn,
                [("platform", Val.str plat), ("version", Val.str ver),
                 ("username", Val.str user), ("accessKey", Val.str key)],
                [("build", Val.str bu), ("name", Val.str nm)], hc2,
                Or.inl ⟨hsauce, plat, ver, user, key, rfl⟩, Or.inl ⟨bu, nm, rfl⟩⟩
          case isFalse hjob =>
              rw [Except.ok.injEq] at h
              refine ⟨bn,
                [("platform", Val.str plat), ("version", Val.str ver),
                 ("username", Val.str user), ("accessKey", Val.str key)], [], ?_,
                Or.inl ⟨hsauce, plat, ver, user, key, rfl⟩, Or.inr rfl⟩
              simpa [dictUpdate] using h.symm
      case isFalse hsauce =>
          rw [Except.ok.injEq] at heq
          subst heq
          split at h
          case isTrue hjob =>
              obtain ⟨bu, nm, hc2⟩ := jenkins_vars_shape envs _ caps h
              refine ⟨bn, [], [("build", Val.str bu), ("name", Val.str nm)], ?_,
                Or.inr ⟨Bool.eq_false_iff.mpr hsauce, rfl⟩, Or.inl ⟨bu, nm, rfl⟩⟩
              simpa [dictUpdate] using hc2
          case isFalse hjob =>
              rw [Except.ok.injEq] at h
              refine ⟨bn, [], [], ?_,
                Or.inr ⟨Bool.eq_false_iff.mpr hsauce, rfl⟩, Or.inr rfl⟩
              simpa [dictUpdate] using h.symm

/-! ## The claims -/

/-- C1: for every environment in which the full ManagedCloud required set
(`SAUCE_ENV_VARS`) is present, the classifier resolves the mode to
ManagedCloud, not Remote, even though Remote's subset (`REMOTE_ENV_VARS`)
is also fully present: ManagedCloud is checked before Remote, and Remote
before Local. -/
theorem claim_C1 (env : Env)
    (h : ∀ k ∈ SAUCE_ENV_VARS, (envGet env k).isSome) :
    use_remote_browser env REMOTE_ENV_VARS = true ∧ mode env = Mode.ManagedCloud := by
  have hs : use_remote_browser env SAUCE_ENV_VARS = true := (use_remote_iff _ _).mpr h
  have hr : use_remote_browser env REMOTE_ENV_VARS = true := by
    refine (use_remote_iff _ _).mpr fun k hk => h k ?_
    unfold SAUCE_ENV_VARS
    exact List.mem_append_left _ hk
  exact ⟨hr, by simp [mode, hs]⟩

theorem claim_C1_witness :
    (∀ k ∈ SAUCE_ENV_VARS,
      (envGet [("SELENIUM_BROWSER", "firefox"), ("SELENIUM_HOST", "h"),
        ("SELENIUM_PORT", "p"), ("SELENIUM_VERSION", "v"), ("SELENIUM_PLATFORM", "pl"),
        ("SAUCE_USER_NAME", "u"), ("SAUCE_API_KEY", "k")] k).isSome) ∧
    mode [("SELENIUM_BROWSER", "firefox"), ("SELENIUM_HOST", "h"),
        ("SELENIUM_PORT", "p"), ("SELENIUM_VERSION", "v"), ("SELENIUM_PLATFORM", "pl"),
        ("SAUCE_USER_NAME", "u"), ("SAUCE_API_KEY", "k")] = Mode.ManagedCloud :=
  ⟨by decide, (claim_C1 _ (by decide)).2⟩

/-- C2: for every environment missing at least one Remote-required variable,
resolution falls back to Local mode and raises no error, for any tags and
any proxy, provided the requested (or default) browser identifier is
supported. -/
theorem claim_C2 (env : Env) (tags : Option (List String)) (proxy : Option Proxy)
    (hmiss : ∃ k ∈ REMOTE_ENV_VARS, envGet env k = none)
    (hsup : ((envGet env "SELENIUM_BROWSER").getD "firefox") ∈ supportedBrowserNames) :
    mode env = Mode.Local ∧ isOk (browser env tags proxy) = true := by
  obtain ⟨k, hk, hkn⟩ := hmiss
  have hr : use_remote_browser env REMOTE_ENV_VARS = false := by
    rw [Bool.eq_false_iff]
    intro htrue
    have := (use_remote_iff _ _).mp htrue k hk
    simp [hkn] at this
  have hs := sauce_false_of_remote_false env hr
  have hmode : mode env = Mode.Local := by simp [mode, hr, hs]
  refine ⟨hmode, ?_⟩
  have hsup' : ((envGet env "SELENIUM_BROWSER").getD "firefox") ∈ BROWSERS.map Prod.fst := hsup
  obtain ⟨c, hc⟩ := Option.isSome_iff_exists.mp ((mem_keys_iff_isSome _ _).mp hsup')
  have hlocal : local_browser_class ((envGet env "SELENIUM_BROWSER").getD "firefox") =
      .ok (c, [], []) := by
    simp [local_browser_class, hc]
  have hcases : ((envGet env "SELENIUM_BROWSER").getD "firefox") = "firefox" ∨
      ((envGet env "SELENIUM_BROWSER").getD "firefox") = "chrome" ∨
      ((envGet env "SELENIUM_BROWSER").getD "firefox") = "internet explorer" ∨
      ((envGet env "SELENIUM_BROWSER").getD "firefox") = "safari" := by
    simpa [supportedBrowserNames, BROWSERS] using hsup
  cases proxy with
  | none => simp [browser, hr, hs, hlocal, bindE_ok, pureE, isOk]
  | some p =>
      rcases hcases with hbn | hbn | hbn | hbn <;>
        rw [hbn] at hlocal <;>
        simp [browser, hr, hs, hlocal, hbn, bindE_ok, pureE, isOk, proxy_kwargs,
          subscr, proxyTypeTable, dictGet, hasKey, dictSet, dictUpdate]

theorem claim_C2_witness :
    (∃ k ∈ REMOTE_ENV_VARS, envGet [("SELENIUM_BROWSER", "chrome")] k = none) ∧
    ((envGet [("SELENIUM_BROWSER", "chrome")] "SELENIUM_BROWSER").getD "firefox")
      ∈ supportedBrowserNames ∧
    isOk (browser [("SELENIUM_BROWSER", "chrome")] none (some ⟨"proxy.example"⟩)) = true :=
  ⟨by decide, by decide,
    (claim_C2 [("SELENIUM_BROWSER", "chrome")] none (some ⟨"proxy.example"⟩)
      (by decide) (by decide)).2⟩

/-- C3, counterexample: in an environment where only `JOB_NAME` is set (and
`BUILD_NUMBER` is not), resolution lands in Local mode and succeeds without
raising, so the pairing check does not apply in Local mode as the claim
states. -/
theorem claim_C3_counterexample :
    envGet [("JOB_NAME", "job")] "JOB_NAME" = some "job" ∧
    envGet [("JOB_NAME", "job")] "BUILD_NUMBER" = none ∧
    mode [("JOB_NAME", "job")] = Mode.Local ∧
    browser [("JOB_NAME", "job")] none none = .ok (.firefox, [], []) :=
  ⟨rfl, rfl, rfl, rfl⟩

/-- C3, amended: the `JOB_NAME`/`BUILD_NUMBER` pairing check applies only in
Remote and ManagedCloud modes (where `_optional_envs` is reached): for every
environment resolving to a remote mode with a supported browser identifier
and exactly one of the pair set, resolution raises `BrowserConfigError`
naming the missing counterpart. In Local mode the pair is never examined. -/
theorem claim_C3_amended (env : Env) (tags : Option (List String))
    (hrem : use_remote_browser env REMOTE_ENV_VARS = true)
    (hsup : ((envGet env "SELENIUM_BROWSER").getD "firefox") ∈ supportedBrowserNames)
    (hxor : ((envGet env "JOB_NAME").isSome ∧ envGet env "BUILD_NUMBER" = none) ∨
      (envGet env "JOB_NAME" = none ∧ (envGet env "BUILD_NUMBER").isSome)) :
    browser env tags none = .error (.browserConfigError
      (if envGet env "BUILD_NUMBER" = none then "Missing BUILD_NUMBER environment var"
       else "Missing JOB_NAME environment var")) := by
  have hopt : optional_envs env = .error (.browserConfigError
      (if envGet env "BUILD_NUMBER" = none then "Missing BUILD_NUMBER environment var"
       else "Missing JOB_NAME environment var")) := by
    rcases hxor with ⟨hj, hb⟩ | ⟨hj, hb⟩
    · rw [if_pos hb]
      exact optional_envs_missing_build env hj hb
    · have hbne : ¬ envGet env "BUILD_NUMBER" = none := by
        simp only [← Option.isSome_iff_ne_none] at *
        exact hb
      rw [if_neg hbne]
      exact optional_envs_missing_job env hj hb
  cases hsauce : use_remote_browser env SAUCE_ENV_VARS with
  | true =>
      have hreq := required_envs_eq_ok env SAUCE_ENV_VARS hsauce (by decide) hsup
      simp [browser, hsauce, remote_browser_class, hreq, hopt, bindE_ok, bindE_err]
  | false =>
      have hreq := required_envs_eq_ok env REMOTE_ENV_VARS hrem (by decide) hsup
      simp [browser, hsauce, hrem, remote_browser_class, hreq, hopt, bindE_ok, bindE_err]

theorem claim_C3_amended_witness :
    browser [("SELENIUM_BROWSER", "chrome"), ("SELENIUM_HOST", "h"),
        ("SELENIUM_PORT", "p"), ("JOB_NAME", "job")] none none =
      .error (.browserConfigError
        (if envGet [("SELENIUM_BROWSER", "chrome"), ("SELENIUM_HOST", "h"),
            ("SELENIUM_PORT", "p"), ("JOB_NAME", "job")] "BUILD_NUMBER" = none
         then "Missing BUILD_NUMBER environment var"
         else "Missing JOB_NAME environment var")) :=
  claim_C3_amended _ none (by decide) (by decide) (Or.inl ⟨by decide, by decide⟩)

/-- C4, counterexample: for the claim's own scenario (Remote mode, tags
`["smoke"]`), the built capabilities carry the tag list `["smoke"]`, not the
empty tag list the claim asserts. -/
theorem claim_C4_counterexample :
    mode [("SELENIUM_BROWSER", "chrome"), ("SELENIUM_HOST", "localhost"),
        ("SELENIUM_PORT", "4444")] = Mode.Remote ∧
    browser [("SELENIUM_BROWSER", "chrome"), ("SELENIUM_HOST", "localhost"),
        ("SELENIUM_PORT", "4444")] (some ["smoke"]) none =
      .ok (.remote, [],
        [("command_executor", .str "http://localhost:4444/wd/hub"),
         ("desired_capabilities", .dict
           [("browserName", .str "chrome"),
            ("video-upload-on-pass", .bool false),
            ("sauce-advisor", .bool false),
            ("capture-html", .bool true),
            ("record-screenshots", .bool true),
            ("max-duration", .int 600),
            ("public", .str "public restricted"),
            ("tags", .list [.str "smoke"])])]) ∧
    Val.list [Val.str "smoke"] ≠ Val.list [] :=
  ⟨rfl, rfl, by simp⟩

/-- C5, counterexample: `_required_envs` accepts a variable that is set to
the empty string, so validation does not require non-empty values: it only
requires the variables to be present. -/
theorem claim_C5_counterexample :
    envGet [("SELENIUM_BROWSER", "firefox"), ("SELENIUM_HOST", ""),
        ("SELENIUM_PORT", "4444")] "SELENIUM_HOST" = some "" ∧
    required_envs [("SELENIUM_BROWSER", "firefox"), ("SELENIUM_HOST", ""),
        ("SELENIUM_PORT", "4444")] REMOTE_ENV_VARS =
      .ok [("SELENIUM_BROWSER", "firefox"), ("SELENIUM_HOST", ""),
        ("SELENIUM_PORT", "4444")] :=
  ⟨rfl, rfl⟩

/-- C4, amended: caller-supplied tags are attached to the Capabilities
mapping in both remote modes (Remote as well as ManagedCloud) — whenever a
capabilities dict is built it carries exactly the supplied tag list — and
tags are ignored without error only in Local mode, where no capabilities
dict is built at all. -/
theorem claim_C4_amended :
    (∀ (env : Env) (envs : List (String × String)) (tags : List String)
      (caps : List (String × Val)),
      capabilities_dict env envs tags = .ok caps →
      dictGet caps "tags" = some (.list (tags.map .str))) ∧
    (∀ (env : Env) (t₁ t₂ : Option (List String)) (p : Option Proxy),
      mode env = Mode.Local → browser env t₁ p = browser env t₂ p) := by
  constructor
  · intro env envs tags caps h
    obtain ⟨bn, sauceExt, jenkExt, hcaps, hs, hj⟩ :=
      capabilities_dict_shape env envs tags caps h
    subst hcaps
    rcases hs with ⟨hsauce, plat, ver, user, key, rfl⟩ | ⟨hsauce, rfl⟩ <;>
      rcases hj with ⟨bu, nm, rfl⟩ | rfl <;>
      simp [baseCapabilities, dictUpdate, List.foldl, dictGet_dictSet, dictGet]
  · intro env t₁ t₂ p hmode
    have hs : use_remote_browser env SAUCE_ENV_VARS = false := by
      cases hsauce : use_remote_browser env SAUCE_ENV_VARS with
      | true => simp [mode, hsauce] at hmode
      | false => rfl
    have hr : use_remote_browser env REMOTE_ENV_VARS = false := by
      cases hrem : use_remote_browser env REMOTE_ENV_VARS with
      | true => simp [mode, hs, hrem] at hmode
      | false => rfl
    simp [browser, hs, hr]

theorem claim_C4_amended_witness :
    mode ([] : Env) = Mode.Local ∧
    browser [] (some ["smoke"]) none = browser [] none none :=
  ⟨by decide, claim_C4_amended.2 [] (some ["smoke"]) none none (by decide)⟩

/-- C5, amended: for a required-variable list containing `SELENIUM_BROWSER`,
validation succeeds if and only if every required variable is present
(set, possibly to the empty string) and the browser identifier is
supported; on missing variables it raises a `BrowserConfigError` listing
every missing variable name, not just the first. -/
theorem claim_C5_amended (env : Env) (vars : List String)
    (hb : "SELENIUM_BROWSER" ∈ vars) :
    ((∃ envs, required_envs env vars = .ok envs) ↔
      ((∀ k ∈ vars, (envGet env k).isSome) ∧
        ((envGet env "SELENIUM_BROWSER").getD "firefox") ∈ supportedBrowserNames)) ∧
    (vars.filter (fun k => (envGet env k).isNone) ≠ [] →
      required_envs env vars = .error (.browserConfigError
        ("These environment variables must be set: " ++
          String.intercalate ", " (vars.filter (fun k => (envGet env k).isNone))))) := by
  constructor
  · constructor
    · rintro ⟨envs, hok⟩
      by_cases hall : ∀ k ∈ vars, (envGet env k).isSome
      · by_cases hsup : ((envGet env "SELENIUM_BROWSER").getD "firefox") ∈ supportedBrowserNames
        · exact ⟨hall, hsup⟩
        · obtain ⟨b, hbv⟩ := Option.isSome_iff_exists.mp (hall _ hb)
          have hsup' : b ∉ supportedBrowserNames := by simpa [hbv] using hsup
          have herr := required_envs_eq_err_unsupported env vars
            ((use_remote_iff env vars).mpr hall) hb b hbv hsup'
          rw [herr] at hok
          cases hok
      · have hne : vars.filter (fun k => (envGet env k).isNone) ≠ [] := by
          intro hnil
          apply hall
          intro k hk
          have := List.filter_eq_nil_iff.mp hnil k hk
          simpa [Option.isNone_iff_eq_none, ← Option.ne_none_iff_isSome] using this
        rw [required_envs_eq_err_missing env vars hne] at hok
        cases hok
    · rintro ⟨hall, hsup⟩
      exact ⟨_, required_envs_eq_ok env vars ((use_remote_iff env vars).mpr hall) hb hsup⟩
  · exact required_envs_eq_err_missing env vars

theorem claim_C5_amended_witness :
    required_envs [("SELENIUM_BROWSER", "firefox")] SAUCE_ENV_VARS =
      .error (.browserConfigError
        ("These environment variables must be set: " ++
          String.intercalate ", "
            (SAUCE_ENV_VARS.filter
              (fun k => (envGet [("SELENIUM_BROWSER", "firefox")] k).isNone)))) :=
  (claim_C5_amended [("SELENIUM_BROWSER", "firefox")] SAUCE_ENV_VARS (by decide)).2
    (by decide)

/-- C6, counterexample: in Remote mode an unsupported browser identifier
raises `BrowserConfigError` with the bare message
`Unsuppported browser: opera`, which does not enumerate the supported
identifiers (it does not even mention `firefox`). -/
theorem claim_C6_counterexample :
    mode [("SELENIUM_BROWSER", "opera"), ("SELENIUM_HOST", "localhost"),
        ("SELENIUM_PORT", "4444")] = Mode.Remote ∧
    browser [("SELENIUM_BROWSER", "opera"), ("SELENIUM_HOST", "localhost"),
        ("SELENIUM_PORT", "4444")] none none =
      .error (.browserConfigError "Unsuppported browser: opera") ∧
    ¬ List.IsInfix "firefox".data "Unsuppported browser: opera".data :=
  ⟨rfl, rfl, by decide⟩

/-- C6, amended: in every mode an unsupported browser identifier causes
resolution to raise a `BrowserConfigError`; the message enumerates the
supported identifiers only in Local mode, while in Remote and ManagedCloud
modes it merely names the unsupported browser. -/
theorem claim_C6_amended (env : Env) (tags : Option (List String))
    (proxy : Option Proxy) (b : String)
    (hbv : (envGet env "SELENIUM_BROWSER").getD "firefox" = b)
    (hsup : b ∉ supportedBrowserNames) :
    browser env tags proxy = .error (.browserConfigError
      (if mode env = Mode.Local
       then "Invalid browser name " ++ b ++ ".  Options are: " ++
         String.intercalate ", " supportedBrowserNames
       else "Unsuppported browser: " ++ b)) := by
  cases hsauce : use_remote_browser env SAUCE_ENV_VARS with
  | true =>
      have hmode : ¬ mode env = Mode.Local := by simp [mode, hsauce]
      have hpres : (envGet env "SELENIUM_BROWSER").isSome :=
        (use_remote_iff env SAUCE_ENV_VARS).mp hsauce _ (by decide)
      obtain ⟨b0, hb0⟩ := Option.isSome_iff_exists.mp hpres
      have hbb : b0 = b := by simpa [hb0] using hbv
      subst hbb
      have hreq := required_envs_eq_err_unsupported env SAUCE_ENV_VARS hsauce
        (by decide) b0 hb0 hsup
      simp [browser, hsauce, remote_browser_class, hreq, bindE_err, hmode]
  | false =>
      cases hrem : use_remote_browser env REMOTE_ENV_VARS with
      | true =>
          have hmode : ¬ mode env = Mode.Local := by simp [mode, hsauce, hrem]
          have hpres : (envGet env "SELENIUM_BROWSER").isSome :=
            (use_remote_iff env REMOTE_ENV_VARS).mp hrem _ (by decide)
          obtain ⟨b0, hb0⟩ := Option.isSome_iff_exists.mp hpres
          have hbb : b0 = b := by simpa [hb0] using hbv
          subst hbb
          have hreq := required_envs_eq_err_unsupported env REMOTE_ENV_VARS hrem
            (by decide) b0 hb0 hsup
          simp [browser, hsauce, hrem, remote_browser_class, hreq, bindE_err, hmode]
      | false =>
          have hmode : mode env = Mode.Local := by simp [mode, hsauce, hrem]
          have hnone : dictGet BROWSERS b = none := by
            rw [← Option.not_isSome_iff_eq_none]
            intro hs
            exact hsup ((mem_keys_iff_isSome BROWSERS b).mpr hs)
          have hlocal : local_browser_class b = .error (.browserConfigError
              ("Invalid browser name " ++ b ++ ".  Options are: " ++
                String.intercalate ", " supportedBrowserNames)) := by
            simp [local_browser_class, hnone]
          simp [browser, hsauce, hrem, hbv, hlocal, bindE_err, hmode]

theorem claim_C6_amended_witness :
    browser [("SELENIUM_BROWSER", "opera")] none none =
      .error (.browserConfigError
        (if mode [("SELENIUM_BROWSER", "opera")] = Mode.Local
         then "Invalid browser name " ++ "opera" ++ ".  Options are: " ++
           String.intercalate ", " supportedBrowserNames
         else "Unsuppported browser: " ++ "opera")) :=
  claim_C6_amended [("SELENIUM_BROWSER", "opera")] none none "opera"
    (by decide) (by decide)

/-- C10, counterexample: for firefox with no desired-capabilities argument,
proxy augmentation overwrites a pre-existing `capabilities` entry, so not
every pre-existing entry other than `proxy` keeps its value. -/
theorem claim_C10_counterexample :
    proxy_kwargs "firefox" ⟨"proxy.example"⟩
        [("capabilities", Val.dict [("x", Val.str "1")])] =
      .ok [("capabilities",
        Val.dict [("proxy", proxyBlock ⟨"proxy.example"⟩ "MANUAL")])] ∧
    dictGet [("capabilities", Val.dict [("x", Val.str "1")])] "capabilities" =
      some (Val.dict [("x", Val.str "1")]) ∧
    Val.dict [("x", Val.str "1")] ≠
      Val.dict [("proxy", proxyBlock ⟨"proxy.example"⟩ "MANUAL")] :=
  ⟨rfl, rfl, by simp [proxyBlock]⟩

/-- C7: proxy placement. For firefox with no desired-capabilities argument
the proxy block goes under a `capabilities` argument; for every other
browser identifier in the proxy-type table, and for firefox when a
desired-capabilities argument is present, it goes under
`desired_capabilities`. -/
theorem claim_C7 (p : Proxy) (kw : Kwargs) :
    (hasKey kw "desired_capabilities" = false →
      proxy_kwargs "firefox" p kw =
        .ok (dictSet kw "capabilities" (.dict [("proxy", proxyBlock p "MANUAL")]))) ∧
    (∀ bn pt, dictGet proxyTypeTable bn = some pt → bn ≠ "firefox" →
      hasKey kw "desired_capabilities" = false →
      proxy_kwargs bn p kw =
        .ok (dictSet (dictSet kw "desired_capabilities" (.dict []))
          "desired_capabilities" (.dict [("proxy", proxyBlock p pt)]))) ∧
    (∀ bn pt d, dictGet proxyTypeTable bn = some pt →
      dictGet kw "desired_capabilities" = some (.dict d) →
      proxy_kwargs bn p kw =
        .ok (dictSet kw "desired_capabilities"
          (.dict (dictSet d "proxy" (proxyBlock p pt))))) := by
  refine ⟨?_, ?_, ?_⟩
  · intro hdc
    simp [proxy_kwargs, subscr, proxyTypeTable, dictGet, hdc, bindE_ok, dictUpdate,
      dictSet]
  · intro bn pt hpt hne hdc
    simp [proxy_kwargs, subscr, hpt, hne, hdc, bindE_ok, dictGet_dictSet, dictUpdate,
      dictSet]
  · intro bn pt d hpt hd
    have hdc : hasKey kw "desired_capabilities" = true := by simp [hasKey, hd]
    simp [proxy_kwargs, subscr, hpt, hdc, hd, bindE_ok, dictUpdate]

theorem claim_C7_witness :
    hasKey ([] : Kwargs) "desired_capabilities" = false ∧
    proxy_kwargs "firefox" ⟨"proxy.example"⟩ [] =
      .ok (dictSet [] "capabilities"
        (.dict [("proxy", proxyBlock ⟨"proxy.example"⟩ "MANUAL")])) :=
  ⟨rfl, (claim_C7 ⟨"proxy.example"⟩ []).1 rfl⟩

theorem proxy_kwargs_no_keyError (bn : String) (p : Proxy) (kw : Kwargs)
    (pt : String) (hpt : dictGet proxyTypeTable bn = some pt) (k : String) :
    proxy_kwargs bn p kw ≠ .error (.keyError k) := by
  simp only [proxy_kwargs, subscr, hpt, bindE_ok]
  cases hcond : (decide (bn = "firefox") && !hasKey kw "desired_capabilities") with
  | true => simp [pureE]
  | false =>
      simp only [Bool.false_eq_true, if_false]
      cases hdc : hasKey kw "desired_capabilities" with
      | true =>
          obtain ⟨v, hv⟩ := Option.isSome_iff_exists.mp (by simpa [hasKey] using hdc)
          cases v <;> simp [hdc, hv, pureE]
      | false => simp [hdc, dictGet_dictSet, pureE]

/-- C9: the fixed proxy-type table has exactly the same key domain as the
supported-browser table, so for a browser identifier that passed
validation the proxy-type lookup succeeds and `_proxy_kwargs` can never
raise a `KeyError`. -/
theorem claim_C9 :
    (∀ bn, bn ∈ supportedBrowserNames ↔ (dictGet proxyTypeTable bn).isSome) ∧
    (∀ (bn : String) (p : Proxy) (kw : Kwargs) (k : String),
      bn ∈ supportedBrowserNames →
      proxy_kwargs bn p kw ≠ .error (.keyError k)) := by
  have hmem : ∀ bn : String, bn ∈ supportedBrowserNames →
      bn = "firefox" ∨ bn = "chrome" ∨ bn = "internet explorer" ∨ bn = "safari" := by
    intro bn h
    simpa [supportedBrowserNames, BROWSERS] using h
  constructor
  · intro bn
    constructor
    · intro h
      rcases hmem bn h with rfl | rfl | rfl | rfl <;> decide
    · intro h
      by_cases h1 : "firefox" = bn
      · simp [supportedBrowserNames, BROWSERS, ← h1]
      · by_cases h2 : "internet explorer" = bn
        · simp [supportedBrowserNames, BROWSERS, ← h2]
        · by_cases h3 : "chrome" = bn
          · simp [supportedBrowserNames, BROWSERS, ← h3]
          · by_cases h4 : "safari" = bn
            · simp [supportedBrowserNames, BROWSERS, ← h4]
            · simp [proxyTypeTable, dictGet, h1, h2, h3, h4] at h
  · intro bn p kw k h
    rcases hmem bn h with rfl | rfl | rfl | rfl
    · exact proxy_kwargs_no_keyError "firefox" p kw "MANUAL" rfl k
    · exact proxy_kwargs_no_keyError "chrome" p kw "AUTODETECT" rfl k
    · exact proxy_kwargs_no_keyError "internet explorer" p kw "MANUAL" rfl k
    · exact proxy_kwargs_no_keyError "safari" p kw "AUTODETECT" rfl k

theorem claim_C9_witness :
    ("chrome" ∈ supportedBrowserNames) ∧
    proxy_kwargs "chrome" ⟨"proxy.example"⟩ [] ≠ .error (.keyError "chrome") :=
  ⟨by decide, claim_C9.2 "chrome" ⟨"proxy.example"⟩ [] "chrome" (by decide)⟩

/-- C8: every capabilities dict built by `_capabilities_dict` contains
exactly one browser-name entry and the fixed base entries (recording and
capture flags, max duration 600, visibility public restricted, tag list),
and the ManagedCloud-only keys platform, version, username and accessKey
are present if and only if the mode is ManagedCloud — they never appear in
Remote-mode capabilities. -/
theorem countKey_baseCapabilities (bn : String) (tags : List String) :
    countKey [("browserName", Val.str bn), ("video-upload-on-pass", Val.bool false),
      ("sauce-advisor", Val.bool false), ("capture-html", Val.bool true),
      ("record-screenshots", Val.bool true), ("max-duration", Val.int 600),
      ("public", Val.str "public restricted"),
      ("tags", Val.list (List.map Val.str tags))] "browserName" = 1 := rfl

theorem claim_C8 (env : Env) (envs : List (String × String)) (tags : List String)
    (caps : List (String × Val)) (h : capabilities_dict env envs tags = .ok caps) :
    countKey caps "browserName" = 1 ∧
    dictGet caps "video-upload-on-pass" = some (.bool false) ∧
    dictGet caps "sauce-advisor" = some (.bool false) ∧
    dictGet caps "capture-html" = some (.bool true) ∧
    dictGet caps "record-screenshots" = some (.bool true) ∧
    dictGet caps "max-duration" = some (.int 600) ∧
    dictGet caps "public" = some (.str "public restricted") ∧
    dictGet caps "tags" = some (.list (tags.map .str)) ∧
    (∀ k ∈ ["platform", "version", "username", "accessKey"],
      (hasKey caps k = true ↔ mode env = Mode.ManagedCloud)) := by
  obtain ⟨bn, sauceExt, jenkExt, hcaps, hs, hj⟩ :=
    capabilities_dict_shape env envs tags caps h
  subst hcaps
  rcases hs with ⟨hsauce, plat, ver, user, key, rfl⟩ | ⟨hsauce, rfl⟩ <;>
    rcases hj with ⟨bu, nm, rfl⟩ | rfl <;>
    simp [dictUpdate, List.foldl, dictGet_dictSet,
      countKey_dictSet_ne, countKey_baseCapabilities, hasKey_dictSet,
      mode_eq_managedCloud_iff, hsauce, baseCapabilities, dictGet, hasKey]

theorem claim_C8_witness :
    capabilities_dict [] [("SELENIUM_BROWSER", "chrome")] ["t"] =
      .ok [("browserName", .str "chrome"),
        ("video-upload-on-pass", .bool false),
        ("sauce-advisor", .bool false),
        ("capture-html", .bool true),
        ("record-screenshots", .bool true),
        ("max-duration", .int 600),
        ("public", .str "public restricted"),
        ("tags", .list [.str "t"])] ∧
    countKey [("browserName", Val.str "chrome"),
        ("video-upload-on-pass", Val.bool false),
        ("sauce-advisor", Val.bool false),
        ("capture-html", Val.bool true),
        ("record-screenshots", Val.bool true),
        ("max-duration", Val.int 600),
        ("public", Val.str "public restricted"),
        ("tags", Val.list [Val.str "t"])] "browserName" = 1 :=
  ⟨rfl, (claim_C8 [] [("SELENIUM_BROWSER", "chrome")] ["t"] _ rfl).1⟩

/-- C10, amended: proxy augmentation writes only the `proxy` key inside the
desired-capabilities mapping — every pre-existing top-level entry other
than `capabilities`/`desired_capabilities` (in particular the connection
endpoint) keeps its value, and every capability key other than `proxy`
inside a pre-existing desired-capabilities dict keeps its value — except
that for firefox without a desired-capabilities argument a pre-existing
`capabilities` entry is overwritten with a dict holding only the proxy
block (in every other case `capabilities` also keeps its value). -/
theorem claim_C10_amended (bn : String) (p : Proxy) (kw kw' : Kwargs)
    (h : proxy_kwargs bn p kw = .ok kw') :
    (∀ k, k ≠ "capabilities" → k ≠ "desired_capabilities" →
      dictGet kw' k = dictGet kw k) ∧
    (∀ d d' ck, dictGet kw "desired_capabilities" = some (.dict d) →
      dictGet kw' "desired_capabilities" = some (.dict d') → ck ≠ "proxy" →
      dictGet d' ck = dictGet d ck) ∧
    (¬(bn = "firefox" ∧ hasKey kw "desired_capabilities" = false) →
      dictGet kw' "capabilities" = dictGet kw "capabilities") := by
  cases hpt : subscr proxyTypeTable bn with
  | error e => simp [proxy_kwargs, hpt, bindE_err] at h
  | ok pt =>
  simp only [proxy_kwargs, hpt, bindE_ok, pureE] at h
  split at h
  case isTrue hcond =>
    rw [Bool.and_eq_true] at hcond
    obtain ⟨h1, h2⟩ := hcond
    have hff : bn = "firefox" := of_decide_eq_true h1
    have hdc : hasKey kw "desired_capabilities" = false := by simpa using h2
    rw [Except.ok.injEq] at h
    subst h
    refine ⟨?_, ?_, ?_⟩
    · intro k hk1 _
      rw [dictGet_dictSet, if_neg fun hh => hk1 hh.symm]
    · intro d d' ck hd _ _
      cases hx : dictGet kw "desired_capabilities" with
      | none => rw [hx] at hd; cases hd
      | some w => rw [hasKey, hx] at hdc; simp at hdc
    · intro hn
      exact absurd ⟨hff, hdc⟩ hn
  case isFalse hcond =>
    by_cases hdc : hasKey kw "desired_capabilities" = true
    · obtain ⟨v, hv⟩ := Option.isSome_iff_exists.mp (by simpa [hasKey] using hdc)
      cases v with
      | dict d0 =>
          simp only [hdc, Bool.not_true, Bool.false_eq_true, if_false, hv,
            Except.ok.injEq] at h
          subst h
          refine ⟨?_, ?_, ?_⟩
          · intro k _ hk2
            rw [dictGet_dictSet, if_neg fun hh => hk2 hh.symm]
          · intro d d' ck hd hd' hck
            rw [hv, Option.some.injEq, Val.dict.injEq] at hd
            subst hd
            rw [dictGet_dictSet, if_pos rfl, Option.some.injEq, Val.dict.injEq] at hd'
            subst hd'
            simp only [dictUpdate, List.foldl]
            rw [dictGet_dictSet, if_neg fun hh => hck hh.symm]
          · intro _
            rw [dictGet_dictSet, if_neg (by decide)]
      | str s => simp [hdc, hv] at h
      | bool b => simp [hdc, hv] at h
      | int n => simp [hdc, hv] at h
      | null => simp [hdc, hv] at h
      | list l => simp [hdc, hv] at h
    · have hdc' : hasKey kw "desired_capabilities" = false := by simpa using hdc
      simp only [hdc', Bool.not_false, if_true, dictGet_dictSet, if_pos rfl,
        Except.ok.injEq] at h
      subst h
      refine ⟨?_, ?_, ?_⟩
      · intro k hk1 hk2
        rw [dictGet_dictSet, if_neg fun hh => hk2 hh.symm,
          dictGet_dictSet, if_neg fun hh => hk2 hh.symm]
      · intro d d' ck hd _ _
        cases hx : dictGet kw "desired_capabilities" with
        | none => rw [hx] at hd; cases hd
        | some w => rw [hasKey, hx] at hdc'; simp at hdc'
      · intro _
        rw [dictGet_dictSet, if_neg (by decide), dictGet_dictSet, if_neg (by decide)]

theorem claim_C10_amended_witness :
    dictGet [("command_executor", Val.str "http://h:p/wd/hub"),
        ("desired_capabilities", Val.dict [("proxy",
          proxyBlock ⟨"proxy.example"⟩ "AUTODETECT")])] "command_executor" =
      dictGet [("command_executor", Val.str "http://h:p/wd/hub"),
        ("desired_capabilities", Val.dict [])] "command_executor" :=
  (claim_C10_amended "chrome" ⟨"proxy.example"⟩
    [("command_executor", Val.str "http://h:p/wd/hub"),
     ("desired_capabilities", Val.dict [])] _ rfl).1
    "command_executor" (by decide) (by decide)

end BokChoy
